import Mathlib

/-!
Shallow embedding of the file-change reconciliation engine of
iac-pr-review-app.

The embedded code:
- src/AIReviewService.ts   : AIReviewService.getFileReview
- src/ReviewFormatter.ts   : ReviewFormatter.formatReview
- src/PRHandler.ts         : processFile, PRHandler.handlePullRequestEvent
- src/GitHubPRService.ts   : GitHubPRService.postFileLevelReviewComment
                             (the request-parameter construction)
- prisma/schema.prisma     : the PRReviewComment table, modelled as an
                             association list keyed by the unique tuple
                             (provider, repo, owner, filePath)

External collaborators (axios, Octokit, the Prisma database) are modelled
as oracles supplied in an environment record; every outward-visible action
of the engine is additionally recorded in an effect trace so that the
specification's counting properties (exactly one create call, no store
write, ...) can be stated.
-/

/-- A file entry of a pull request, as returned by
GitHubPRService.listPullRequestFiles (interface IPullRequestFile in
src/types.ts). -/
structure PRFile where
  filename : String
  sha : String
  status : String
  additions : Nat
  deletions : Nat
  changes : Nat
deriving DecidableEq

/-- The repository owner object of the webhook payload
(payload.repository.owner). -/
structure OwnerInfo where
  login : String
deriving DecidableEq

/-- The repository object of the webhook payload (payload.repository). -/
structure RepositoryInfo where
  name : String
  owner : OwnerInfo
deriving DecidableEq

/-- The head object of the pull request in the webhook payload
(payload.pull_request.head). -/
structure HeadInfo where
  sha : String
deriving DecidableEq

/-- The pull request object of the webhook payload (payload.pull_request). -/
structure PullRequestInfo where
  number : Nat
  head : HeadInfo
deriving DecidableEq

/-- The pull request webhook payload, restricted to the fields PRHandler
reads. -/
structure Payload where
  action : String
  repository : RepositoryInfo
  pull_request : PullRequestInfo
deriving DecidableEq

/-- The unique key of the PRReviewComment table:
@@unique([provider, repo, owner, filePath]) in prisma/schema.prisma. -/
structure RecordKey where
  provider : String
  repo : String
  owner : String
  filePath : String
deriving DecidableEq

/-- The mutable attributes of a PRReviewComment row (the id and createdAt
columns play no role in the logic). -/
structure PRRecord where
  fileSha : String
  commentId : String
deriving DecidableEq

/-- The PRReviewComment table, one row per unique RecordKey. -/
abbrev Store := List (RecordKey × PRRecord)

/-- prisma.pRReviewComment.findUnique on the composite key. -/
def findUnique : Store → RecordKey → Option PRRecord
  | [], _ => none
  | (k, r) :: rest, key => if k = key then some r else findUnique rest key

/-- prisma.pRReviewComment.update with data { fileSha }: the row matching
the unique key gets the new fileSha, its commentId is untouched. -/
def storeUpdateSha (store : Store) (key : RecordKey) (sha : String) : Store :=
  store.map fun p => (p.1, if p.1 = key then ⟨sha, p.2.commentId⟩ else p.2)

/-- prisma.pRReviewComment.upsert: replace the row matching the unique key
if it exists, otherwise append a fresh row. -/
def storeUpsertRec (store : Store) (key : RecordKey) (sha cid : String) :
    Store :=
  if (findUnique store key).isSome then
    store.map fun p => (p.1, if p.1 = key then ⟨sha, cid⟩ else p.2)
  else store ++ [(key, ⟨sha, cid⟩)]

/-- Environment of AIReviewService.getFileReview: the two environment
variables it reads and the outcome of the axios.post call.  postResult
returns the review field of the response body on success (none when the
field is absent) and an error on a failed HTTP request. -/
structure AIEnv where
  aiWorkflowUrlVar : Option String
  mockAiReviewVar : Option String
  postResult : String → String → Except String (Option String)

/-- AIReviewService.getFileReview (src/AIReviewService.ts).  Mirrors the
source line by line: mock mode short-circuits; a missing (or empty, hence
falsy) AI_WORKFLOW_URL yields the fallback text; a failed HTTP request is
caught and yields the fallback text; a falsy review field yields the
default text.  All paths return a plain string: the function never
rejects. -/
def AIReviewService.getFileReview (env : AIEnv) (filePath : String) :
    String :=
  if env.mockAiReviewVar = some "true" then
    "Mock review for " ++ filePath
  else
    match env.aiWorkflowUrlVar with
    | none => "AI review unavailable."
    | some url =>
      if url = "" then "AI review unavailable."
      else
        match env.postResult url filePath with
        | Except.error _ => "Error generating review."
        | Except.ok (some review) =>
          if review = "" then "No review provided." else review
        | Except.ok none => "No review provided."

/-- The AIReview object of src/types.ts, with the fields used by
ReviewFormatter and MockAIReviewService. -/
structure AIReview where
  summary : String
  security : String
  bestPractices : String
  status : String
deriving DecidableEq

/-- ReviewFormatter.formatReview (src/ReviewFormatter.ts): renders the
review object into the Markdown template. -/
def ReviewFormatter.formatReview (review : AIReview) : String :=
  "### File Review\n        \n> [!NOTE]\n> **Summary:**  \n" ++
    review.summary ++
    "\n\n> [!CAUTION]\n> **Security:**  \n" ++ review.security ++
    "\n\n> [!IMPORTANT]\n> **Best Practices:**  \n" ++ review.bestPractices

/-- In src/PRHandler.ts line 46 the plain string returned by
AIReviewService.getFileReview is passed where formatReview expects an
AIReview object; at JavaScript runtime the three property reads on the
string primitive yield undefined, which template-literal interpolation
renders as the text "undefined".  The formatted body is therefore the
same constant string whatever the review text was. -/
def ReviewFormatter.formatReviewOnString (_aiReview : String) : String :=
  ReviewFormatter.formatReview ⟨"undefined", "undefined", "undefined", "undefined"⟩

/-- Environment of the reconciliation engine: the AIReviewService
environment plus the outcomes of the IPRService calls the engine makes.
updateOutcome commentId body models prService.updateReviewComment;
createOutcome prNumber body commitSha filePath models
prService.postFileLevelReviewComment and returns the created comment id;
listFiles prNumber models prService.listPullRequestFiles. -/
structure Env where
  ai : AIEnv
  updateOutcome : String → String → Except String Unit
  createOutcome : Nat → String → String → String → Except String String
  listFiles : Nat → Except String (List PRFile)

/-- One outward-visible action of the engine.  Each constructor also
records the filename of the file whose processing performed it, so that
per-file properties can be stated (for the provider calls this is the
filename the engine was processing when it made the call). -/
inductive Effect where
  | getReview (filePath : String)
  | storeRead (key : RecordKey)
  | updateComment (commentId : String) (body : String) (filePath : String)
  | storeUpdate (key : RecordKey) (sha : String)
  | createComment (prNumber : Nat) (body : String) (commitSha : String)
      (filePath : String)
  | storeUpsert (key : RecordKey) (sha : String) (commentId : String)
deriving DecidableEq

/-- Decidable equality for Except, so that results of concrete runs can
be checked by evaluation. -/
instance exceptDecEq {ε α : Type} [DecidableEq ε] [DecidableEq α] :
    DecidableEq (Except ε α)
  | Except.error e, Except.error f =>
    if h : e = f then Decidable.isTrue (by rw [h])
    else Decidable.isFalse (fun he => by cases he; exact h rfl)
  | Except.error _, Except.ok _ => Decidable.isFalse (fun h => Except.noConfusion h)
  | Except.ok _, Except.error _ => Decidable.isFalse (fun h => Except.noConfusion h)
  | Except.ok a, Except.ok b =>
    if h : a = b then Decidable.isTrue (by rw [h])
    else Decidable.isFalse (fun he => by cases he; exact h rfl)

/-- Result of running a piece of the engine: whether it resolved or
rejected, the state of the PRReviewComment table when it returned, and
the trace of outward-visible actions it performed. -/
structure ProcResult where
  result : Except String Unit
  store : Store
  trace : List Effect
deriving DecidableEq

/-- The composite key processFile uses for every store operation:
provider is the literal string GitHub. -/
def recordKey (payload : Payload) (file : PRFile) : RecordKey :=
  ⟨"GitHub", payload.repository.name, payload.repository.owner.login,
    file.filename⟩

/-- The Markdown body processFile sends, lines 44-46 of src/PRHandler.ts:
the AI review string for the file, run through the formatter. -/
def reviewBody (env : Env) (file : PRFile) : String :=
  ReviewFormatter.formatReviewOnString
    (AIReviewService.getFileReview env.ai file.filename)

/-- The trace of the two actions every call of processFile performs
before branching: the unconditional review-text fetch (line 44) and the
row lookup (line 49). -/
def preTrace (payload : Payload) (file : PRFile) : List Effect :=
  [Effect.getReview file.filename, Effect.storeRead (recordKey payload file)]

/-- Lines 96-127 of src/PRHandler.ts: post a new file-level review
comment and, if the post resolved, upsert the row with the new comment id
and file sha.  A rejected post propagates out of processFile before any
store write.  pre is the trace accumulated so far. -/
def postNewComment (env : Env) (payload : Payload) (file : PRFile)
    (formattedReview : String) (store : Store) (pre : List Effect) :
    ProcResult :=
  match env.createOutcome payload.pull_request.number
      formattedReview payload.pull_request.head.sha file.filename with
  | Except.error e =>
    ⟨Except.error e, store,
      pre ++ [Effect.createComment payload.pull_request.number
        formattedReview payload.pull_request.head.sha file.filename]⟩
  | Except.ok newCommentId =>
    ⟨Except.ok (),
      storeUpsertRec store (recordKey payload file) file.sha newCommentId,
      pre ++ [Effect.createComment payload.pull_request.number
          formattedReview payload.pull_request.head.sha file.filename,
        Effect.storeUpsert (recordKey payload file) file.sha newCommentId]⟩

/-- processFile (src/PRHandler.ts lines 37-128).  The review text is
fetched first, unconditionally; then the row is looked up; an existing
row with an unchanged sha returns with no further action; an existing row
with a changed sha attempts the in-place comment update and on success
advances only the sha, while a rejected update is caught and falls
through to posting a new comment; no row, or a failed update, posts a new
comment and upserts. -/
def processFile (env : Env) (payload : Payload) (file : PRFile)
    (store : Store) : ProcResult :=
  match findUnique store (recordKey payload file) with
  | some existingRecord =>
    if existingRecord.fileSha = file.sha then
      ⟨Except.ok (), store, preTrace payload file⟩
    else
      match env.updateOutcome existingRecord.commentId (reviewBody env file) with
      | Except.ok _ =>
        ⟨Except.ok (), storeUpdateSha store (recordKey payload file) file.sha,
          preTrace payload file ++
            [Effect.updateComment existingRecord.commentId
                (reviewBody env file) file.filename,
              Effect.storeUpdate (recordKey payload file) file.sha]⟩
      | Except.error _ =>
        postNewComment env payload file (reviewBody env file) store
          (preTrace payload file ++
            [Effect.updateComment existingRecord.commentId
              (reviewBody env file) file.filename])
  | none =>
    postNewComment env payload file (reviewBody env file) store
      (preTrace payload file)

/-- The per-file loop of PRHandler.handlePullRequestEvent (lines
172-174): each file is awaited in order, so a rejection of processFile
propagates and the remaining files are not processed. -/
def processFiles (env : Env) (payload : Payload) (files : List PRFile)
    (store : Store) : ProcResult :=
  match files with
  | [] => ⟨Except.ok (), store, []⟩
  | f :: rest =>
    match processFile env payload f store with
    | ⟨Except.error e, st, tr⟩ => ⟨Except.error e, st, tr⟩
    | ⟨Except.ok _, st, tr⟩ =>
      ⟨(processFiles env payload rest st).result,
        (processFiles env payload rest st).store,
        tr ++ (processFiles env payload rest st).trace⟩

/-- JavaScript String.prototype.endsWith, as used in the filter on line
165 of src/PRHandler.ts: the second string is a suffix of the first
(the filenames involved are ASCII, where code-unit suffix and character
suffix coincide). -/
def strEndsWith (s suff : String) : Bool :=
  suff.data.isSuffixOf s.data

/-- PRHandler.handlePullRequestEvent (src/PRHandler.ts lines 145-180).
For opened and synchronize actions the files are listed (a rejected
listing propagates with nothing done), filtered to .tf files, and
processed in the provider's order; other actions do nothing. -/
def PRHandler.handlePullRequestEvent (env : Env) (payload : Payload)
    (store : Store) : ProcResult :=
  if payload.action = "opened" ∨ payload.action = "synchronize" then
    match env.listFiles payload.pull_request.number with
    | Except.error e => ⟨Except.error e, store, []⟩
    | Except.ok files =>
      if (files.filter fun f => strEndsWith f.filename ".tf").isEmpty then
        ⟨Except.ok (), store, []⟩
      else
        processFiles env payload
          (files.filter fun f => strEndsWith f.filename ".tf") store
  else ⟨Except.ok (), store, []⟩

/-- The request-parameter object passed to octokit.pulls.createReviewComment
by GitHubPRService.postFileLevelReviewComment (and, for contrast, by the
inline postReviewComment).  line is optional: the file-level call does
not send it. -/
structure CreateReviewCommentParams where
  owner : String
  repo : String
  pull_number : Nat
  commit_id : String
  path : String
  body : String
  line : Option Nat
  subject_type : Option String
deriving DecidableEq

/-- GitHubPRService.postFileLevelReviewComment (src/GitHubPRService.ts
lines 144-164): the parameters it sends anchor the comment at the given
commit id, carry no line, and set subject_type to file. -/
def GitHubPRService.postFileLevelReviewCommentParams (owner repo : String)
    (prId : Nat) (comment : String) (commitId : String)
    (filePath : String) : CreateReviewCommentParams :=
  { owner := owner, repo := repo, pull_number := prId,
    commit_id := commitId, path := filePath, body := comment,
    line := none, subject_type := some "file" }

/-! Classification of effects, for stating the counting properties. -/

/-- The effect is a createFileComment provider call. -/
def Effect.isCreate : Effect → Bool
  | Effect.createComment _ _ _ _ => true
  | _ => false

/-- The effect is an updateComment provider call. -/
def Effect.isUpdateCall : Effect → Bool
  | Effect.updateComment _ _ _ => true
  | _ => false

/-- The effect is a write to the Comment Store. -/
def Effect.isStoreWrite : Effect → Bool
  | Effect.storeUpdate _ _ => true
  | Effect.storeUpsert _ _ _ => true
  | _ => false

/-- The effect is a remote comment write on the provider (create or
update). -/
def Effect.isRemoteCommentWrite (e : Effect) : Bool :=
  e.isCreate || e.isUpdateCall

/-- The effect is a call to an external collaborator (the Review Text
Source or the Review Provider Client), as opposed to a Comment Store
operation. -/
def Effect.isExternalCall : Effect → Bool
  | Effect.getReview _ => true
  | Effect.updateComment _ _ _ => true
  | Effect.createComment _ _ _ _ => true
  | _ => false

/-- The filename of the file whose processing performed the effect. -/
def Effect.file : Effect → String
  | Effect.getReview fp => fp
  | Effect.storeRead k => k.filePath
  | Effect.updateComment _ _ fp => fp
  | Effect.storeUpdate k _ => k.filePath
  | Effect.createComment _ _ _ fp => fp
  | Effect.storeUpsert k _ _ => k.filePath

/-- Number of createFileComment calls in a trace. -/
def countCreates (tr : List Effect) : Nat :=
  tr.countP fun e => e.isCreate

/-- Number of Comment Store writes in a trace. -/
def countStoreWrites (tr : List Effect) : Nat :=
  tr.countP fun e => e.isStoreWrite

/-- Number of remote comment writes (create or update calls) in a
trace. -/
def countRemoteCommentWrites (tr : List Effect) : Nat :=
  tr.countP fun e => e.isRemoteCommentWrite

/-! Lemmas about the store operations. -/

/-- Looking a key up after replacing the rows matching another key. -/
theorem findUnique_mapReplace (store : Store) (key k : RecordKey)
    (f : PRRecord → PRRecord) :
    findUnique (store.map fun p => (p.1, if p.1 = key then f p.2 else p.2)) k =
      if k = key then (findUnique store key).map f else findUnique store k := by
  induction store with
  | nil => simp [findUnique]
  | cons p rest ih =>
    obtain ⟨pk, pr⟩ := p
    by_cases h1 : pk = key
    · subst h1
      by_cases h2 : k = pk
      · subst h2
        simp [findUnique, ih]
      · simp [findUnique, h2, Ne.symm h2, ih]
    · by_cases h2 : pk = k
      · subst h2
        simp [findUnique, h1, Ne.symm h1, ih]
      · simp [findUnique, h1, h2, ih]

/-- Looking a key up in a concatenation when the first part misses. -/
theorem findUnique_append_of_none (s1 s2 : Store) (k : RecordKey)
    (h : findUnique s1 k = none) :
    findUnique (s1 ++ s2) k = findUnique s2 k := by
  induction s1 with
  | nil => simp
  | cons p rest ih =>
    obtain ⟨pk, pr⟩ := p
    by_cases h2 : pk = k
    · subst h2; simp [findUnique] at h
    · simp [findUnique, h2] at h ⊢
      exact ih h

/-- After an upsert, the upserted key maps to the upserted row. -/
theorem findUnique_storeUpsertRec_self (store : Store) (key : RecordKey)
    (sha cid : String) :
    findUnique (storeUpsertRec store key sha cid) key = some ⟨sha, cid⟩ := by
  unfold storeUpsertRec
  by_cases h : (findUnique store key).isSome
  · rw [if_pos h]
    rw [findUnique_mapReplace store key key (fun _ => ⟨sha, cid⟩)]
    rw [if_pos rfl]
    obtain ⟨r, hr⟩ := Option.isSome_iff_exists.mp h
    rw [hr]
    rfl
  · rw [if_neg h]
    rw [findUnique_append_of_none store _ key
      (Option.not_isSome_iff_eq_none.mp h)]
    simp [findUnique]

/-- An upsert leaves every other key's row untouched. -/
theorem findUnique_storeUpsertRec_other (store : Store) (key k : RecordKey)
    (sha cid : String) (hk : k ≠ key) :
    findUnique (storeUpsertRec store key sha cid) k = findUnique store k := by
  unfold storeUpsertRec
  by_cases h : (findUnique store key).isSome
  · rw [if_pos h]
    rw [findUnique_mapReplace store key k (fun _ => ⟨sha, cid⟩)]
    rw [if_neg hk]
  · rw [if_neg h]
    induction store with
    | nil => simp [findUnique, Ne.symm hk]
    | cons p rest ih =>
      obtain ⟨pk, pr⟩ := p
      by_cases h2 : pk = k
      · subst h2; simp [findUnique]
      · simp only [findUnique, List.cons_append, if_neg h2] at *
        by_cases h3 : pk = key
        · subst h3
          simp [findUnique, h2, hk] at *
        · simp only [findUnique, if_neg h3] at h ih ⊢
          exact ih h

/-- After a sha-only update, the key's row keeps its commentId and takes
the new sha. -/
theorem findUnique_storeUpdateSha_self (store : Store) (key : RecordKey)
    (sha : String) :
    findUnique (storeUpdateSha store key sha) key =
      (findUnique store key).map fun r => ⟨sha, r.commentId⟩ := by
  unfold storeUpdateSha
  rw [findUnique_mapReplace store key key (fun r => ⟨sha, r.commentId⟩)]
  rw [if_pos rfl]

/-- A sha-only update leaves every other key's row untouched. -/
theorem findUnique_storeUpdateSha_other (store : Store) (key k : RecordKey)
    (sha : String) (hk : k ≠ key) :
    findUnique (storeUpdateSha store key sha) k = findUnique store k := by
  unfold storeUpdateSha
  rw [findUnique_mapReplace store key k (fun r => ⟨sha, r.commentId⟩)]
  rw [if_neg hk]

/-! Branch equations for processFile: one per control path of
src/PRHandler.ts lines 37-128. -/

/-- Row present, sha unchanged (lines 61-64): no comment call, no store
write. -/
theorem processFile_eq_unchanged (env : Env) (payload : Payload)
    (file : PRFile) (store : Store) (rec : PRRecord)
    (hfind : findUnique store (recordKey payload file) = some rec)
    (hsha : rec.fileSha = file.sha) :
    processFile env payload file store =
      ⟨Except.ok (), store, preTrace payload file⟩ := by
  unfold processFile
  rw [hfind]
  simp [hsha]

/-- Row present, sha changed, comment update resolved (lines 67-88): the
sha is advanced in place. -/
theorem processFile_eq_update_ok (env : Env) (payload : Payload)
    (file : PRFile) (store : Store) (rec : PRRecord)
    (hfind : findUnique store (recordKey payload file) = some rec)
    (hsha : rec.fileSha ≠ file.sha)
    (hupd : env.updateOutcome rec.commentId (reviewBody env file) =
      Except.ok ()) :
    processFile env payload file store =
      ⟨Except.ok (), storeUpdateSha store (recordKey payload file) file.sha,
        preTrace payload file ++
          [Effect.updateComment rec.commentId (reviewBody env file)
              file.filename,
            Effect.storeUpdate (recordKey payload file) file.sha]⟩ := by
  unfold processFile
  rw [hfind]
  simp [hsha, hupd]

/-- Row present, sha changed, update rejected, fallback create resolved
(lines 89-127): a new comment is posted and the row upserted with the
returned id. -/
theorem processFile_eq_update_fail_create_ok (env : Env) (payload : Payload)
    (file : PRFile) (store : Store) (rec : PRRecord) (eu cid : String)
    (hfind : findUnique store (recordKey payload file) = some rec)
    (hsha : rec.fileSha ≠ file.sha)
    (hupd : env.updateOutcome rec.commentId (reviewBody env file) =
      Except.error eu)
    (hcr : env.createOutcome payload.pull_request.number
        (reviewBody env file) payload.pull_request.head.sha file.filename =
      Except.ok cid) :
    processFile env payload file store =
      ⟨Except.ok (),
        storeUpsertRec store (recordKey payload file) file.sha cid,
        preTrace payload file ++
          [Effect.updateComment rec.commentId (reviewBody env file)
              file.filename,
            Effect.createComment payload.pull_request.number
              (reviewBody env file) payload.pull_request.head.sha
              file.filename,
            Effect.storeUpsert (recordKey payload file) file.sha cid]⟩ := by
  unfold processFile postNewComment
  rw [hfind]
  simp [hsha, hupd, hcr]

/-- Row present, sha changed, update rejected, fallback create rejected:
processFile rejects before any store write, the table is untouched. -/
theorem processFile_eq_update_fail_create_fail (env : Env)
    (payload : Payload) (file : PRFile) (store : Store) (rec : PRRecord)
    (eu ec : String)
    (hfind : findUnique store (recordKey payload file) = some rec)
    (hsha : rec.fileSha ≠ file.sha)
    (hupd : env.updateOutcome rec.commentId (reviewBody env file) =
      Except.error eu)
    (hcr : env.createOutcome payload.pull_request.number
        (reviewBody env file) payload.pull_request.head.sha file.filename =
      Except.error ec) :
    processFile env payload file store =
      ⟨Except.error ec, store,
        preTrace payload file ++
          [Effect.updateComment rec.commentId (reviewBody env file)
              file.filename,
            Effect.createComment payload.pull_request.number
              (reviewBody env file) payload.pull_request.head.sha
              file.filename]⟩ := by
  unfold processFile postNewComment
  rw [hfind]
  simp [hsha, hupd, hcr]

/-- No row, create resolved (lines 96-127): a new comment is posted and
a fresh row written. -/
theorem processFile_eq_new_create_ok (env : Env) (payload : Payload)
    (file : PRFile) (store : Store) (cid : String)
    (hfind : findUnique store (recordKey payload file) = none)
    (hcr : env.createOutcome payload.pull_request.number
        (reviewBody env file) payload.pull_request.head.sha file.filename =
      Except.ok cid) :
    processFile env payload file store =
      ⟨Except.ok (),
        storeUpsertRec store (recordKey payload file) file.sha cid,
        preTrace payload file ++
          [Effect.createComment payload.pull_request.number
              (reviewBody env file) payload.pull_request.head.sha
              file.filename,
            Effect.storeUpsert (recordKey payload file) file.sha cid]⟩ := by
  unfold processFile postNewComment
  rw [hfind]
  simp [hcr]

/-- No row, create rejected: processFile rejects, nothing written. -/
theorem processFile_eq_new_create_fail (env : Env) (payload : Payload)
    (file : PRFile) (store : Store) (ec : String)
    (hfind : findUnique store (recordKey payload file) = none)
    (hcr : env.createOutcome payload.pull_request.number
        (reviewBody env file) payload.pull_request.head.sha file.filename =
      Except.error ec) :
    processFile env payload file store =
      ⟨Except.error ec, store,
        preTrace payload file ++
          [Effect.createComment payload.pull_request.number
              (reviewBody env file) payload.pull_request.head.sha
              file.filename]⟩ := by
  unfold processFile postNewComment
  rw [hfind]
  simp [hcr]

/-! Trace lemmas. -/

/-- Every effect postNewComment records either was already in the
accumulated prefix or belongs to the file being processed. -/
theorem postNewComment_trace_mem (env : Env) (payload : Payload)
    (file : PRFile) (fr : String) (store : Store) (pre : List Effect) :
    ∀ e ∈ (postNewComment env payload file fr store pre).trace,
      e ∈ pre ∨ Effect.file e = file.filename := by
  intro e he
  unfold postNewComment at he
  split at he <;> simp at he <;>
    rcases he with he | he
  · exact Or.inl he
  · subst he; exact Or.inr rfl
  · exact Or.inl he
  · rcases he with he | he <;> subst he <;> exact Or.inr rfl

/-- Every effect recorded while processing a file belongs to that file:
its filename (for provider and text-source calls) or its row key's
filePath (for store operations) is the file's filename. -/
theorem processFile_trace_file (env : Env) (payload : Payload)
    (file : PRFile) (store : Store) :
    ∀ e ∈ (processFile env payload file store).trace,
      Effect.file e = file.filename := by
  intro e he
  unfold processFile at he
  split at he
  · split at he
    · simp [preTrace] at he
      rcases he with he | he <;> subst he <;> rfl
    · split at he
      · simp [preTrace] at he
        rcases he with he | he | he | he <;> subst he <;> rfl
      · have h := postNewComment_trace_mem env payload file
          (reviewBody env file) store _ e he
        rcases h with h | h
        · simp [preTrace] at h
          rcases h with h | h | h <;> subst h <;> rfl
        · exact h
  · have h := postNewComment_trace_mem env payload file
      (reviewBody env file) store _ e he
    rcases h with h | h
    · simp [preTrace] at h
      rcases h with h | h <;> subst h <;> rfl
    · exact h

/-- A createFileComment call recorded while processing a file carries the
payload's pull request number, the formatted review body, the payload's
head commit sha, and the file's filename. -/
theorem processFile_create_mem (env : Env) (payload : Payload)
    (file : PRFile) (store : Store) (n : Nat) (b c fp : String)
    (he : Effect.createComment n b c fp ∈
      (processFile env payload file store).trace) :
    n = payload.pull_request.number ∧ b = reviewBody env file ∧
      c = payload.pull_request.head.sha ∧ fp = file.filename := by
  unfold processFile at he
  split at he
  · split at he
    · simp [preTrace] at he
    · split at he
      · simp [preTrace] at he
      · unfold postNewComment at he
        split at he <;> simp [preTrace] at he <;>
          rcases he with ⟨rfl, rfl, rfl, rfl⟩ <;>
          exact ⟨rfl, rfl, rfl, rfl⟩
  · unfold postNewComment at he
    split at he <;> simp [preTrace] at he <;>
      rcases he with ⟨rfl, rfl, rfl, rfl⟩ <;>
      exact ⟨rfl, rfl, rfl, rfl⟩

/-- A store upsert recorded while processing a file writes the file's
row key with the file's current sha and exactly the comment id the
createFileComment call returned. -/
theorem processFile_upsert_mem (env : Env) (payload : Payload)
    (file : PRFile) (store : Store) (k : RecordKey) (s cid : String)
    (he : Effect.storeUpsert k s cid ∈
      (processFile env payload file store).trace) :
    k = recordKey payload file ∧ s = file.sha ∧
      env.createOutcome payload.pull_request.number (reviewBody env file)
        payload.pull_request.head.sha file.filename = Except.ok cid := by
  unfold processFile at he
  split at he
  · split at he
    · simp [preTrace] at he
    · split at he
      · simp [preTrace] at he
      · unfold postNewComment at he
        split at he
        next hcr => simp [preTrace] at he
        next newId hcr =>
          simp [preTrace] at he
          rcases he with ⟨rfl, rfl, rfl⟩
          exact ⟨rfl, rfl, hcr⟩
  · unfold postNewComment at he
    split at he
    next hcr => simp [preTrace] at he
    next newId hcr =>
      simp [preTrace] at he
      rcases he with ⟨rfl, rfl, rfl⟩
      exact ⟨rfl, rfl, hcr⟩

/-- Every effect of the per-file loop belongs to one of the files of the
list. -/
theorem processFiles_trace_mem (env : Env) (payload : Payload) :
    ∀ (files : List PRFile) (store : Store),
      ∀ e ∈ (processFiles env payload files store).trace,
        ∃ f ∈ files, Effect.file e = f.filename := by
  intro files
  induction files with
  | nil =>
    intro store e he
    simp [processFiles] at he
  | cons f rest ih =>
    intro store e he
    unfold processFiles at he
    split at he
    next err st tr hpf =>
      have hall := processFile_trace_file env payload f store
      rw [hpf] at hall
      exact ⟨f, by simp, hall e he⟩
    next u st tr hpf =>
      simp only [List.mem_append] at he
      rcases he with he | he
      · have hall := processFile_trace_file env payload f store
        rw [hpf] at hall
        exact ⟨f, by simp, hall e he⟩
      · obtain ⟨g, hg, hgf⟩ := ih st e he
        exact ⟨g, by simp [hg], hgf⟩

/-- Every createFileComment call of the per-file loop is anchored at the
payload's pull request number and head commit sha, with the body and path
of one of the files of the list. -/
theorem processFiles_create_mem (env : Env) (payload : Payload) :
    ∀ (files : List PRFile) (store : Store) (n : Nat) (b c fp : String),
      Effect.createComment n b c fp ∈
        (processFiles env payload files store).trace →
      n = payload.pull_request.number ∧
        c = payload.pull_request.head.sha ∧
        ∃ f ∈ files, b = reviewBody env f ∧ fp = f.filename := by
  intro files
  induction files with
  | nil =>
    intro store n b c fp he
    simp [processFiles] at he
  | cons f rest ih =>
    intro store n b c fp he
    unfold processFiles at he
    split at he
    next err st tr hpf =>
      have h := processFile_create_mem env payload f store n b c fp
        (by rw [hpf]; exact he)
      exact ⟨h.1, h.2.2.1, f, by simp, h.2.1, h.2.2.2⟩
    next u st tr hpf =>
      simp only [List.mem_append] at he
      rcases he with he | he
      · have h := processFile_create_mem env payload f store n b c fp
          (by rw [hpf]; exact he)
        exact ⟨h.1, h.2.2.1, f, by simp, h.2.1, h.2.2.2⟩
      · obtain ⟨h1, h2, g, hg, h3, h4⟩ := ih st n b c fp he
        exact ⟨h1, h2, g, by simp [hg], h3, h4⟩

/-- Every store upsert of the per-file loop writes the row key, current
sha and returned create-call id of one of the files of the list. -/
theorem processFiles_upsert_mem (env : Env) (payload : Payload) :
    ∀ (files : List PRFile) (store : Store) (k : RecordKey) (s cid : String),
      Effect.storeUpsert k s cid ∈
        (processFiles env payload files store).trace →
      ∃ f ∈ files, k = recordKey payload f ∧ s = f.sha ∧
        env.createOutcome payload.pull_request.number (reviewBody env f)
          payload.pull_request.head.sha f.filename = Except.ok cid := by
  intro files
  induction files with
  | nil =>
    intro store k s cid he
    simp [processFiles] at he
  | cons f rest ih =>
    intro store k s cid he
    unfold processFiles at he
    split at he
    next err st tr hpf =>
      have h := processFile_upsert_mem env payload f store k s cid
        (by rw [hpf]; exact he)
      exact ⟨f, by simp, h⟩
    next u st tr hpf =>
      simp only [List.mem_append] at he
      rcases he with he | he
      · have h := processFile_upsert_mem env payload f store k s cid
          (by rw [hpf]; exact he)
        exact ⟨f, by simp, h⟩
      · obtain ⟨g, hg, h⟩ := ih st k s cid he
        exact ⟨g, by simp [hg], h⟩

/-- When every file of the list already has a row with its current sha,
the per-file loop resolves, leaves the table untouched, and performs no
remote comment write and no store write (it still fetches review text and
reads the store for every file). -/
theorem processFiles_all_unchanged (env : Env) (payload : Payload) :
    ∀ (files : List PRFile) (store : Store),
      (∀ f ∈ files, ∃ rec,
        findUnique store (recordKey payload f) = some rec ∧
          rec.fileSha = f.sha) →
      (processFiles env payload files store).result = Except.ok () ∧
        (processFiles env payload files store).store = store ∧
        countRemoteCommentWrites
          (processFiles env payload files store).trace = 0 ∧
        countStoreWrites (processFiles env payload files store).trace = 0 := by
  intro files
  induction files with
  | nil =>
    intro store h
    simp [processFiles, countRemoteCommentWrites, countStoreWrites]
  | cons f rest ih =>
    intro store h
    obtain ⟨rec, hfind, hsha⟩ := h f (by simp)
    have hpf := processFile_eq_unchanged env payload f store rec hfind hsha
    have hrest := ih store (fun g hg => h g (by simp [hg]))
    unfold processFiles
    rw [hpf]
    refine ⟨hrest.1, hrest.2.1, ?_, ?_⟩
    · simp only [countRemoteCommentWrites, List.countP_append]
      have : List.countP (fun e => Effect.isRemoteCommentWrite e)
          (preTrace payload f) = 0 := by
        simp [preTrace, Effect.isRemoteCommentWrite, Effect.isCreate,
          Effect.isUpdateCall, List.countP_cons]
      rw [this]
      have h2 := hrest.2.2.1
      simp only [countRemoteCommentWrites] at h2
      simp [h2]
    · simp only [countStoreWrites, List.countP_append]
      have : List.countP (fun e => Effect.isStoreWrite e)
          (preTrace payload f) = 0 := by
        simp [preTrace, Effect.isStoreWrite, List.countP_cons]
      rw [this]
      have h2 := hrest.2.2.2
      simp only [countStoreWrites] at h2
      simp [h2]

/-- Every effect of handlePullRequestEvent belongs to a file whose
filename ends in .tf. -/
theorem handle_trace_tf (env : Env) (payload : Payload) (store : Store) :
    ∀ e ∈ (PRHandler.handlePullRequestEvent env payload store).trace,
      strEndsWith (Effect.file e) ".tf" = true := by
  intro e he
  unfold PRHandler.handlePullRequestEvent at he
  split at he
  · split at he
    · simp at he
    · split at he
      · simp at he
      · obtain ⟨f, hf, hef⟩ := processFiles_trace_mem env payload _ store e he
        rw [hef]
        exact (List.mem_filter.mp hf).2
  · simp at he

/-! Concrete fixtures for witnesses and counterexamples. -/

/-- A synchronize event payload on alice/infra, pull request 42, head
commit headsha42. -/
def samplePayload : Payload :=
  ⟨"synchronize", ⟨"infra", ⟨"alice"⟩⟩, ⟨42, ⟨"headsha42"⟩⟩⟩

/-- The store key processFile derives for main.tf under samplePayload. -/
def sampleKeyMain : RecordKey := ⟨"GitHub", "infra", "alice", "main.tf"⟩

/-- main.tf at content hash h1. -/
def fileMainH1 : PRFile := ⟨"main.tf", "h1", "modified", 3, 1, 4⟩

/-- main.tf at content hash h2. -/
def fileMainH2 : PRFile := ⟨"main.tf", "h2", "modified", 5, 2, 7⟩

/-- An AI environment whose HTTP request resolves with review text. -/
def aiOkEnv : AIEnv :=
  ⟨some "http://ai.internal/review", none,
    fun _ _ => Except.ok (some "All good.")⟩

/-- A store holding main.tf tracked at hash h1 under comment id-old. -/
def storeTracked : Store := [(sampleKeyMain, ⟨"h1", "id-old"⟩)]

/-- Environment for the update-then-fallback scenario: the remote comment
vanished, so updateReviewComment rejects, while postFileLevelReviewComment
resolves with id-new. -/
def envGone : Env :=
  ⟨aiOkEnv,
    fun _ _ => Except.error "404 comment not found",
    fun _ _ _ _ => Except.ok "id-new",
    fun _ => Except.ok [fileMainH2]⟩

/-- C3: with a tracked record and a changed hash, after a rejected
in-place update exactly one createFileComment call follows and the row
then holds the new hash together with the id returned by that create
call. -/
theorem C3_update_fallback_record (env : Env) (payload : Payload)
    (file : PRFile) (store : Store) (rec : PRRecord) (eu cid : String)
    (hfind : findUnique store (recordKey payload file) = some rec)
    (hsha : rec.fileSha ≠ file.sha)
    (hupd : env.updateOutcome rec.commentId (reviewBody env file) =
      Except.error eu)
    (hcr : env.createOutcome payload.pull_request.number
        (reviewBody env file) payload.pull_request.head.sha file.filename =
      Except.ok cid) :
    countCreates (processFile env payload file store).trace = 1 ∧
      findUnique (processFile env payload file store).store
        (recordKey payload file) = some ⟨file.sha, cid⟩ := by
  rw [processFile_eq_update_fail_create_ok env payload file store rec eu cid
    hfind hsha hupd hcr]
  constructor
  · simp [countCreates, preTrace, List.countP_append, List.countP_cons,
      Effect.isCreate]
  · exact findUnique_storeUpsertRec_self store _ file.sha cid

/-- C3 witness: concrete run of the update-then-fallback scenario. -/
theorem C3_update_fallback_record_witness :
    findUnique storeTracked (recordKey samplePayload fileMainH2) =
        some ⟨"h1", "id-old"⟩ ∧
      countCreates
          (processFile envGone samplePayload fileMainH2 storeTracked).trace =
        1 ∧
      findUnique
          (processFile envGone samplePayload fileMainH2 storeTracked).store
          (recordKey samplePayload fileMainH2) = some ⟨"h2", "id-new"⟩ :=
  ⟨by decide,
    C3_update_fallback_record envGone samplePayload fileMainH2 storeTracked
      ⟨"h1", "id-old"⟩ "404 comment not found" "id-new" (by decide)
      (by decide) rfl rfl⟩

/-- Environment where both the comment update and the fallback create
reject. -/
def envAllFail : Env :=
  ⟨aiOkEnv,
    fun _ _ => Except.error "404 comment not found",
    fun _ _ _ _ => Except.error "502 bad gateway",
    fun _ => Except.ok [fileMainH2]⟩

/-- C4: with a tracked record and a changed hash, when both the update
and the fallback create reject, processFile rejects, performs no store
write, and the table (hence the stored record) is byte-identical before
and after. -/
theorem C4_double_failure_no_write (env : Env) (payload : Payload)
    (file : PRFile) (store : Store) (rec : PRRecord) (eu ec : String)
    (hfind : findUnique store (recordKey payload file) = some rec)
    (hsha : rec.fileSha ≠ file.sha)
    (hupd : env.updateOutcome rec.commentId (reviewBody env file) =
      Except.error eu)
    (hcr : env.createOutcome payload.pull_request.number
        (reviewBody env file) payload.pull_request.head.sha file.filename =
      Except.error ec) :
    (processFile env payload file store).result = Except.error ec ∧
      (processFile env payload file store).store = store ∧
      countStoreWrites (processFile env payload file store).trace = 0 := by
  rw [processFile_eq_update_fail_create_fail env payload file store rec eu ec
    hfind hsha hupd hcr]
  refine ⟨rfl, rfl, ?_⟩
  simp [countStoreWrites, preTrace, List.countP_append, List.countP_cons,
    Effect.isStoreWrite]

/-- C4 witness: concrete run where both remote operations reject. -/
theorem C4_double_failure_no_write_witness :
    findUnique storeTracked (recordKey samplePayload fileMainH2) =
        some ⟨"h1", "id-old"⟩ ∧
      (processFile envAllFail samplePayload fileMainH2 storeTracked).result =
        Except.error "502 bad gateway" ∧
      (processFile envAllFail samplePayload fileMainH2 storeTracked).store =
        storeTracked ∧
      countStoreWrites
          (processFile envAllFail samplePayload fileMainH2
            storeTracked).trace = 0 :=
  ⟨by decide,
    (C4_double_failure_no_write envAllFail samplePayload fileMainH2
        storeTracked ⟨"h1", "id-old"⟩ "404 comment not found"
        "502 bad gateway" (by decide) (by decide) rfl rfl).1,
    (C4_double_failure_no_write envAllFail samplePayload fileMainH2
        storeTracked ⟨"h1", "id-old"⟩ "404 comment not found"
        "502 bad gateway" (by decide) (by decide) rfl rfl).2.1,
    (C4_double_failure_no_write envAllFail samplePayload fileMainH2
        storeTracked ⟨"h1", "id-old"⟩ "404 comment not found"
        "502 bad gateway" (by decide) (by decide) rfl rfl).2.2⟩

/-- Environment for the first-seen scenario: no remote failures, the
create call returns id-first. -/
def envFirstSeen : Env :=
  ⟨aiOkEnv,
    fun _ _ => Except.ok (),
    fun _ _ _ _ => Except.ok "id-first",
    fun _ => Except.ok [fileMainH1]⟩

/-- C6: for an eligible file with no prior row, a resolving
reconciliation performs exactly one createFileComment call and exactly
one store write, and the written row carries the file's current sha and
the id returned by that create call. -/
theorem C6_first_seen (env : Env) (payload : Payload) (file : PRFile)
    (store : Store) (cid : String)
    (hfind : findUnique store (recordKey payload file) = none)
    (hcr : env.createOutcome payload.pull_request.number
        (reviewBody env file) payload.pull_request.head.sha file.filename =
      Except.ok cid) :
    (processFile env payload file store).result = Except.ok () ∧
      countCreates (processFile env payload file store).trace = 1 ∧
      countStoreWrites (processFile env payload file store).trace = 1 ∧
      findUnique (processFile env payload file store).store
        (recordKey payload file) = some ⟨file.sha, cid⟩ := by
  rw [processFile_eq_new_create_ok env payload file store cid hfind hcr]
  refine ⟨rfl, ?_, ?_, ?_⟩
  · simp [countCreates, preTrace, List.countP_append, List.countP_cons,
      Effect.isCreate]
  · simp [countStoreWrites, preTrace, List.countP_append, List.countP_cons,
      Effect.isStoreWrite]
  · exact findUnique_storeUpsertRec_self store _ file.sha cid

/-- C6 witness: concrete first-seen run against an empty store. -/
theorem C6_first_seen_witness :
    findUnique [] (recordKey samplePayload fileMainH1) = none ∧
      (processFile envFirstSeen samplePayload fileMainH1 []).result =
        Except.ok () ∧
      countCreates (processFile envFirstSeen samplePayload fileMainH1
        []).trace = 1 ∧
      countStoreWrites (processFile envFirstSeen samplePayload fileMainH1
        []).trace = 1 ∧
      findUnique (processFile envFirstSeen samplePayload fileMainH1 []).store
        (recordKey samplePayload fileMainH1) = some ⟨"h1", "id-first"⟩ :=
  ⟨rfl,
    (C6_first_seen envFirstSeen samplePayload fileMainH1 [] "id-first"
        rfl rfl).1,
    (C6_first_seen envFirstSeen samplePayload fileMainH1 [] "id-first"
        rfl rfl).2.1,
    (C6_first_seen envFirstSeen samplePayload fileMainH1 [] "id-first"
        rfl rfl).2.2.1,
    (C6_first_seen envFirstSeen samplePayload fileMainH1 [] "id-first"
        rfl rfl).2.2.2⟩

/-- Environment for the in-place update scenario: updateReviewComment
resolves. -/
def envUpdateOk : Env :=
  ⟨aiOkEnv,
    fun _ _ => Except.ok (),
    fun _ _ _ _ => Except.ok "id-unused",
    fun _ => Except.ok [fileMainH2]⟩

/-- C7: with a tracked record and a changed hash, when the in-place
update resolves the store write advances only the sha: the row keeps its
commentId, every other row is untouched, and no createFileComment call is
made. -/
theorem C7_update_in_place (env : Env) (payload : Payload) (file : PRFile)
    (store : Store) (rec : PRRecord)
    (hfind : findUnique store (recordKey payload file) = some rec)
    (hsha : rec.fileSha ≠ file.sha)
    (hupd : env.updateOutcome rec.commentId (reviewBody env file) =
      Except.ok ()) :
    (processFile env payload file store).result = Except.ok () ∧
      findUnique (processFile env payload file store).store
        (recordKey payload file) = some ⟨file.sha, rec.commentId⟩ ∧
      (∀ k : RecordKey, k ≠ recordKey payload file →
        findUnique (processFile env payload file store).store k =
          findUnique store k) ∧
      countCreates (processFile env payload file store).trace = 0 := by
  rw [processFile_eq_update_ok env payload file store rec hfind hsha hupd]
  refine ⟨rfl, ?_, ?_, ?_⟩
  · show findUnique (storeUpdateSha store (recordKey payload file) file.sha)
      (recordKey payload file) = some ⟨file.sha, rec.commentId⟩
    rw [findUnique_storeUpdateSha_self, hfind]
    rfl
  · intro k hk
    exact findUnique_storeUpdateSha_other store _ k file.sha hk
  · simp [countCreates, preTrace, List.countP_append, List.countP_cons,
      Effect.isCreate]

/-- C7 witness: concrete in-place update run. -/
theorem C7_update_in_place_witness :
    findUnique storeTracked (recordKey samplePayload fileMainH2) =
        some ⟨"h1", "id-old"⟩ ∧
      (processFile envUpdateOk samplePayload fileMainH2 storeTracked).result =
        Except.ok () ∧
      findUnique
          (processFile envUpdateOk samplePayload fileMainH2
            storeTracked).store (recordKey samplePayload fileMainH2) =
        some ⟨"h2", "id-old"⟩ ∧
      countCreates (processFile envUpdateOk samplePayload fileMainH2
        storeTracked).trace = 0 :=
  ⟨by decide,
    (C7_update_in_place envUpdateOk samplePayload fileMainH2 storeTracked
        ⟨"h1", "id-old"⟩ (by decide) (by decide) rfl).1,
    (C7_update_in_place envUpdateOk samplePayload fileMainH2 storeTracked
        ⟨"h1", "id-old"⟩ (by decide) (by decide) rfl).2.1,
    (C7_update_in_place envUpdateOk samplePayload fileMainH2 storeTracked
        ⟨"h1", "id-old"⟩ (by decide) (by decide) rfl).2.2.2⟩


/-- C8: a file whose filename does not end in .tf never appears in any
effect of handlePullRequestEvent: no store read, no store write, no
review-text fetch and no provider comment call is made for it. -/
theorem C8_filter_exclusivity (env : Env) (payload : Payload)
    (store : Store) (fp : String) (hfp : strEndsWith fp ".tf" = false) :
    ∀ e ∈ (PRHandler.handlePullRequestEvent env payload store).trace,
      Effect.file e ≠ fp := by
  intro e he heq
  have htf := handle_trace_tf env payload store e he
  rw [heq, hfp] at htf
  exact Bool.false_ne_true htf

/-- Environment for a pull request containing one .tf file and one
ineligible file. -/
def envMixed : Env :=
  ⟨aiOkEnv,
    fun _ _ => Except.ok (),
    fun _ _ _ _ => Except.ok "id-first",
    fun _ => Except.ok [fileMainH1, ⟨"README.md", "hd", "modified", 1, 0, 1⟩]⟩

/-- C8 witness: in a concrete event with main.tf and README.md, no effect
belongs to README.md. -/
theorem C8_filter_exclusivity_witness :
    strEndsWith "README.md" ".tf" = false ∧
      ∀ e ∈ (PRHandler.handlePullRequestEvent envMixed samplePayload
        []).trace, Effect.file e ≠ "README.md" :=
  ⟨by decide,
    fun e he =>
      C8_filter_exclusivity envMixed samplePayload [] "README.md"
        (by decide) e he⟩

/-- C9: every new comment the engine posts is sent through
postFileLevelReviewComment with the pull request number and head commit
sha of the event payload, and the parameter object that call builds is
file-scoped (subject_type file, no line anchor) and anchored at exactly
that commit; the row a successful create then persists carries the
processed file's current sha and the id the create call returned. -/
theorem C9_whole_file_anchoring (env : Env) (payload : Payload)
    (store : Store) :
    (∀ (n : Nat) (b c fp : String),
      Effect.createComment n b c fp ∈
        (PRHandler.handlePullRequestEvent env payload store).trace →
      c = payload.pull_request.head.sha ∧ n = payload.pull_request.number ∧
        (GitHubPRService.postFileLevelReviewCommentParams
            payload.repository.owner.login payload.repository.name n b c
            fp).subject_type = some "file" ∧
        (GitHubPRService.postFileLevelReviewCommentParams
            payload.repository.owner.login payload.repository.name n b c
            fp).line = none ∧
        (GitHubPRService.postFileLevelReviewCommentParams
            payload.repository.owner.login payload.repository.name n b c
            fp).commit_id = payload.pull_request.head.sha) ∧
    (∀ (k : RecordKey) (s cid : String),
      Effect.storeUpsert k s cid ∈
        (PRHandler.handlePullRequestEvent env payload store).trace →
      ∃ f : PRFile, k = recordKey payload f ∧ s = f.sha ∧
        env.createOutcome payload.pull_request.number (reviewBody env f)
          payload.pull_request.head.sha f.filename = Except.ok cid) := by
  constructor
  · intro n b c fp he
    unfold PRHandler.handlePullRequestEvent at he
    split at he
    · split at he
      · simp at he
      · split at he
        · simp at he
        · obtain ⟨h1, h2, f, hf, h3, h4⟩ :=
            processFiles_create_mem env payload _ store n b c fp he
          subst h1
          subst h2
          exact ⟨rfl, rfl, rfl, rfl, rfl⟩
    · simp at he
  · intro k s cid he
    unfold PRHandler.handlePullRequestEvent at he
    split at he
    · split at he
      · simp at he
      · split at he
        · simp at he
        · obtain ⟨f, hf, h⟩ :=
            processFiles_upsert_mem env payload _ store k s cid he
          exact ⟨f, h⟩
    · simp at he

/-- C9 witness: concrete event in which a comment is created for main.tf,
anchored at the payload's head commit. -/
theorem C9_whole_file_anchoring_witness :
    Effect.createComment 42 (reviewBody envMixed fileMainH1) "headsha42"
        "main.tf" ∈
      (PRHandler.handlePullRequestEvent envMixed samplePayload []).trace ∧
      ("headsha42" = samplePayload.pull_request.head.sha ∧
        42 = samplePayload.pull_request.number ∧
        (GitHubPRService.postFileLevelReviewCommentParams
            samplePayload.repository.owner.login
            samplePayload.repository.name 42
            (reviewBody envMixed fileMainH1) "headsha42"
            "main.tf").subject_type = some "file" ∧
        (GitHubPRService.postFileLevelReviewCommentParams
            samplePayload.repository.owner.login
            samplePayload.repository.name 42
            (reviewBody envMixed fileMainH1) "headsha42"
            "main.tf").line = none ∧
        (GitHubPRService.postFileLevelReviewCommentParams
            samplePayload.repository.owner.login
            samplePayload.repository.name 42
            (reviewBody envMixed fileMainH1) "headsha42"
            "main.tf").commit_id = samplePayload.pull_request.head.sha) :=
  ⟨by decide,
    (C9_whole_file_anchoring envMixed samplePayload []).1 42
      (reviewBody envMixed fileMainH1) "headsha42" "main.tf" (by decide)⟩

/-- AI environment whose HTTP request to the review engine fails: the
Review Text Source cannot produce a review. -/
def aiHttpFail : AIEnv :=
  ⟨some "http://ai.internal/review", none,
    fun _ _ => Except.error "ECONNREFUSED"⟩

/-- Environment with a failing text source and an otherwise healthy
provider. -/
def envTextFail : Env :=
  ⟨aiHttpFail,
    fun _ _ => Except.ok (),
    fun _ _ _ _ => Except.ok "id-err",
    fun _ => Except.ok [fileMainH1]⟩

/-- C1 counterexample: the review HTTP request fails (text-source
failure), yet processing main.tf with no prior record performs one
createFileComment call and writes a store record — the engine does not
skip the file, contradicting the claim. -/
theorem C1_counterexample :
    AIReviewService.getFileReview envTextFail.ai "main.tf" =
        "Error generating review." ∧
      countCreates
          (processFile envTextFail samplePayload fileMainH1 []).trace = 1 ∧
      findUnique (processFile envTextFail samplePayload fileMainH1 []).store
        sampleKeyMain = some ⟨"h1", "id-err"⟩ := by
  decide

/-- C1 amended: on text-source failure the engine does not skip the
file.  AIReviewService resolves with the fallback error text, which the
engine treats as ordinary review text: for a file with no prior record
whose create call resolves, one comment is created and one record with
the file's hash and the returned comment id is written. -/
theorem C1_text_failure_no_skip (env : Env) (payload : Payload)
    (file : PRFile) (store : Store) (url err cid : String)
    (hmock : env.ai.mockAiReviewVar ≠ some "true")
    (hurl : env.ai.aiWorkflowUrlVar = some url) (hne : url ≠ "")
    (hfail : env.ai.postResult url file.filename = Except.error err)
    (hfind : findUnique store (recordKey payload file) = none)
    (hcr : env.createOutcome payload.pull_request.number
        (reviewBody env file) payload.pull_request.head.sha file.filename =
      Except.ok cid) :
    AIReviewService.getFileReview env.ai file.filename =
        "Error generating review." ∧
      countCreates (processFile env payload file store).trace = 1 ∧
      countStoreWrites (processFile env payload file store).trace = 1 ∧
      findUnique (processFile env payload file store).store
        (recordKey payload file) = some ⟨file.sha, cid⟩ := by
  refine ⟨?_, ?_, ?_, ?_⟩
  · unfold AIReviewService.getFileReview
    rw [if_neg hmock, hurl]
    simp [hne, hfail]
  · rw [processFile_eq_new_create_ok env payload file store cid hfind hcr]
    simp [countCreates, preTrace, List.countP_append, List.countP_cons,
      Effect.isCreate]
  · rw [processFile_eq_new_create_ok env payload file store cid hfind hcr]
    simp [countStoreWrites, preTrace, List.countP_append, List.countP_cons,
      Effect.isStoreWrite]
  · rw [processFile_eq_new_create_ok env payload file store cid hfind hcr]
    exact findUnique_storeUpsertRec_self store _ file.sha cid

/-- C1 amended witness: concrete run with the failing text source. -/
theorem C1_text_failure_no_skip_witness :
    envTextFail.ai.postResult "http://ai.internal/review" "main.tf" =
        Except.error "ECONNREFUSED" ∧
      AIReviewService.getFileReview envTextFail.ai "main.tf" =
        "Error generating review." ∧
      countCreates
          (processFile envTextFail samplePayload fileMainH1 []).trace = 1 ∧
      countStoreWrites
          (processFile envTextFail samplePayload fileMainH1 []).trace = 1 ∧
      findUnique (processFile envTextFail samplePayload fileMainH1 []).store
        (recordKey samplePayload fileMainH1) = some ⟨"h1", "id-err"⟩ :=
  ⟨rfl,
    (C1_text_failure_no_skip envTextFail samplePayload fileMainH1 []
        "http://ai.internal/review" "ECONNREFUSED" "id-err" (by decide)
        rfl (by decide) rfl rfl rfl).1,
    (C1_text_failure_no_skip envTextFail samplePayload fileMainH1 []
        "http://ai.internal/review" "ECONNREFUSED" "id-err" (by decide)
        rfl (by decide) rfl rfl rfl).2.1,
    (C1_text_failure_no_skip envTextFail samplePayload fileMainH1 []
        "http://ai.internal/review" "ECONNREFUSED" "id-err" (by decide)
        rfl (by decide) rfl rfl rfl).2.2.1,
    (C1_text_failure_no_skip envTextFail samplePayload fileMainH1 []
        "http://ai.internal/review" "ECONNREFUSED" "id-err" (by decide)
        rfl (by decide) rfl rfl rfl).2.2.2⟩

/-- A changed Terraform file a.tf. -/
def fileATf : PRFile := ⟨"a.tf", "ha", "modified", 1, 0, 1⟩

/-- A changed Terraform file b.tf. -/
def fileBTf : PRFile := ⟨"b.tf", "hb", "modified", 1, 0, 1⟩

/-- Environment where listing the files succeeds but the create call for
a.tf rejects while the one for b.tf would resolve. -/
def envFirstFileFails : Env :=
  ⟨aiOkEnv,
    fun _ _ => Except.ok (),
    fun _ _ _ fp =>
      if fp = "a.tf" then Except.error "500 create failed"
      else Except.ok "id-b",
    fun _ => Except.ok [fileATf, fileBTf]⟩

/-- C2 counterexample: listing succeeded, yet the event fails because the
create call for a.tf rejected, and b.tf is never processed — no effect of
the run belongs to it.  The per-file failure aborted the remaining files,
contradicting the claim. -/
theorem C2_counterexample :
    envFirstFileFails.listFiles samplePayload.pull_request.number =
        Except.ok [fileATf, fileBTf] ∧
      (PRHandler.handlePullRequestEvent envFirstFileFails samplePayload
        []).result = Except.error "500 create failed" ∧
      ∀ e ∈ (PRHandler.handlePullRequestEvent envFirstFileFails
        samplePayload []).trace, Effect.file e ≠ "b.tf" := by
  decide

/-- C2 amended: the operation rejects when listing the files rejects
(propagated with nothing done), and also when processing an individual
file rejects (a failed fallback or first-seen comment create): such a
per-file failure propagates out of the loop, so the remaining files of
the snapshot are not processed.  Only comment-update failures are
isolated, through the create fallback. -/
theorem C2_failure_propagation (env : Env) (payload : Payload)
    (store : Store) (f : PRFile) (rest : List PRFile) (e el : String)
    (hact : payload.action = "opened" ∨ payload.action = "synchronize")
    (hl : env.listFiles payload.pull_request.number = Except.error el)
    (hpf : (processFile env payload f store).result = Except.error e) :
    PRHandler.handlePullRequestEvent env payload store =
        ⟨Except.error el, store, []⟩ ∧
      processFiles env payload (f :: rest) store =
        ⟨Except.error e, (processFile env payload f store).store,
          (processFile env payload f store).trace⟩ := by
  constructor
  · unfold PRHandler.handlePullRequestEvent
    rw [if_pos hact, hl]
  · unfold processFiles
    cases hr : processFile env payload f store with
    | mk res st tr =>
      rw [hr] at hpf
      simp only at hpf
      subst hpf
      simp

/-- C2 amended witness: concrete environment whose listing rejects and
whose create call rejects. -/
def envListAndCreateFail : Env :=
  ⟨aiOkEnv,
    fun _ _ => Except.ok (),
    fun _ _ _ _ => Except.error "500 create failed",
    fun _ => Except.error "listing failed"⟩

/-- C2 witness: concrete run of both failure modes. -/
theorem C2_failure_propagation_witness :
    (samplePayload.action = "opened" ∨
        samplePayload.action = "synchronize") ∧
      envListAndCreateFail.listFiles samplePayload.pull_request.number =
        Except.error "listing failed" ∧
      (processFile envListAndCreateFail samplePayload fileATf []).result =
        Except.error "500 create failed" ∧
      PRHandler.handlePullRequestEvent envListAndCreateFail samplePayload
          [] = ⟨Except.error "listing failed", [], []⟩ ∧
      processFiles envListAndCreateFail samplePayload [fileATf] [] =
        ⟨Except.error "500 create failed",
          (processFile envListAndCreateFail samplePayload fileATf []).store,
          (processFile envListAndCreateFail samplePayload fileATf
            []).trace⟩ :=
  ⟨by decide, rfl, by decide,
    (C2_failure_propagation envListAndCreateFail samplePayload [] fileATf
        [] "500 create failed" "listing failed" (by decide) rfl
        (by decide)).1,
    (C2_failure_propagation envListAndCreateFail samplePayload [] fileATf
        [] "500 create failed" "listing failed" (by decide) rfl
        (by decide)).2⟩

/-- Environment for the unchanged-hash scenario. -/
def envUnchanged : Env :=
  ⟨aiOkEnv,
    fun _ _ => Except.ok (),
    fun _ _ _ _ => Except.ok "id-x",
    fun _ => Except.ok [fileMainH1]⟩

/-- C5 counterexample: with a record present and the hash unchanged, the
engine still performs one call to an external collaborator — the review
text source is invoked, unconditionally and before the store lookup —
contradicting "no calls to any external collaborator". -/
theorem C5_counterexample :
    findUnique storeTracked (recordKey samplePayload fileMainH1) =
        some ⟨"h1", "id-old"⟩ ∧
      fileMainH1.sha = "h1" ∧
      Effect.getReview "main.tf" ∈
        (processFile envUnchanged samplePayload fileMainH1
          storeTracked).trace ∧
      (processFile envUnchanged samplePayload fileMainH1
          storeTracked).trace.countP
        (fun e => Effect.isExternalCall e) = 1 := by
  decide

/-- C5 amended: with a record present and the hash unchanged, the engine
performs no provider comment call and no store write and leaves the table
untouched — but it does invoke the review text source and read the store.
Consequently, re-processing a snapshot whose files all have unchanged
hashes performs zero remote comment writes and zero store writes. -/
theorem C5_unchanged_no_writes (env : Env) (payload : Payload)
    (file : PRFile) (store : Store) (rec : PRRecord) (files : List PRFile)
    (hfind : findUnique store (recordKey payload file) = some rec)
    (hsha : rec.fileSha = file.sha)
    (hall : ∀ f ∈ files, ∃ r,
      findUnique store (recordKey payload f) = some r ∧
        r.fileSha = f.sha) :
    processFile env payload file store =
        ⟨Except.ok (), store, preTrace payload file⟩ ∧
      countRemoteCommentWrites
          (processFile env payload file store).trace = 0 ∧
      countStoreWrites (processFile env payload file store).trace = 0 ∧
      (processFiles env payload files store).result = Except.ok () ∧
      (processFiles env payload files store).store = store ∧
      countRemoteCommentWrites
          (processFiles env payload files store).trace = 0 ∧
      countStoreWrites (processFiles env payload files store).trace = 0 := by
  have hpf := processFile_eq_unchanged env payload file store rec hfind hsha
  have hrest := processFiles_all_unchanged env payload files store hall
  refine ⟨hpf, ?_, ?_, hrest.1, hrest.2.1, hrest.2.2.1, hrest.2.2.2⟩
  · rw [hpf]
    simp [countRemoteCommentWrites, preTrace, List.countP_cons,
      Effect.isRemoteCommentWrite, Effect.isCreate, Effect.isUpdateCall]
  · rw [hpf]
    simp [countStoreWrites, preTrace, List.countP_cons, Effect.isStoreWrite]

/-- C5 witness: concrete unchanged-hash run, processed as a one-file
snapshot. -/
theorem C5_unchanged_no_writes_witness :
    findUnique storeTracked (recordKey samplePayload fileMainH1) =
        some ⟨"h1", "id-old"⟩ ∧
      processFile envUnchanged samplePayload fileMainH1 storeTracked =
        ⟨Except.ok (), storeTracked, preTrace samplePayload fileMainH1⟩ ∧
      (processFiles envUnchanged samplePayload [fileMainH1]
        storeTracked).store = storeTracked ∧
      countRemoteCommentWrites
          (processFiles envUnchanged samplePayload [fileMainH1]
            storeTracked).trace = 0 ∧
      countStoreWrites
          (processFiles envUnchanged samplePayload [fileMainH1]
            storeTracked).trace = 0 :=
  ⟨by decide,
    (C5_unchanged_no_writes envUnchanged samplePayload fileMainH1
        storeTracked ⟨"h1", "id-old"⟩ [fileMainH1] (by decide) (by decide)
        (fun f hf => by
          simp at hf
          subst hf
          exact ⟨⟨"h1", "id-old"⟩, by decide, by decide⟩)).1,
    (C5_unchanged_no_writes envUnchanged samplePayload fileMainH1
        storeTracked ⟨"h1", "id-old"⟩ [fileMainH1] (by decide) (by decide)
        (fun f hf => by
          simp at hf
          subst hf
          exact ⟨⟨"h1", "id-old"⟩, by decide, by decide⟩)).2.2.2.2.1,
    (C5_unchanged_no_writes envUnchanged samplePayload fileMainH1
        storeTracked ⟨"h1", "id-old"⟩ [fileMainH1] (by decide) (by decide)
        (fun f hf => by
          simp at hf
          subst hf
          exact ⟨⟨"h1", "id-old"⟩, by decide, by decide⟩)).2.2.2.2.2.1,
    (C5_unchanged_no_writes envUnchanged samplePayload fileMainH1
        storeTracked ⟨"h1", "id-old"⟩ [fileMainH1] (by decide) (by decide)
        (fun f hf => by
          simp at hf
          subst hf
          exact ⟨⟨"h1", "id-old"⟩, by decide, by decide⟩)).2.2.2.2.2.2⟩

/-- AI environment with mock mode enabled and no workflow URL
configured. -/
def aiMockNoUrl : AIEnv := ⟨none, some "true", fun _ _ => Except.ok none⟩

/-- C10 counterexample: an environment configuration in which the AI
workflow URL is unconfigured but mock mode is enabled resolves to the
mock text, not to the claimed fallback. -/
theorem C10_counterexample :
    aiMockNoUrl.aiWorkflowUrlVar = none ∧
      AIReviewService.getFileReview aiMockNoUrl "main.tf" =
        "Mock review for main.tf" ∧
      AIReviewService.getFileReview aiMockNoUrl "main.tf" ≠
        "AI review unavailable." := by
  decide

/-- C10 amended: when mock mode is not enabled, getFileReview resolves to
the plain string AI review unavailable. when the workflow URL is
unconfigured and to Error generating review. when the HTTP request fails;
the result carries no machine-readable status, so a successful fetch
whose review text happens to equal the failure text is indistinguishable
from a failure. -/
theorem C10_plain_string_outcomes (ai1 ai2 ai3 : AIEnv)
    (filePath url : String) (err : String)
    (h1mock : ai1.mockAiReviewVar ≠ some "true")
    (h1url : ai1.aiWorkflowUrlVar = none)
    (h2mock : ai2.mockAiReviewVar ≠ some "true")
    (h2url : ai2.aiWorkflowUrlVar = some url) (h2ne : url ≠ "")
    (h2post : ai2.postResult url filePath = Except.error err)
    (h3mock : ai3.mockAiReviewVar ≠ some "true")
    (h3url : ai3.aiWorkflowUrlVar = some url) (h3ne : url ≠ "")
    (h3post : ai3.postResult url filePath =
      Except.ok (some "Error generating review.")) :
    AIReviewService.getFileReview ai1 filePath = "AI review unavailable." ∧
      AIReviewService.getFileReview ai2 filePath =
        "Error generating review." ∧
      AIReviewService.getFileReview ai3 filePath =
        AIReviewService.getFileReview ai2 filePath := by
  have h2 : AIReviewService.getFileReview ai2 filePath =
      "Error generating review." := by
    unfold AIReviewService.getFileReview
    rw [if_neg h2mock, h2url]
    simp [h2ne, h2post]
  refine ⟨?_, h2, ?_⟩
  · unfold AIReviewService.getFileReview
    rw [if_neg h1mock, h1url]
  · rw [h2]
    unfold AIReviewService.getFileReview
    rw [if_neg h3mock, h3url]
    simp [h3ne, h3post]

/-- AI environment with no URL and mock mode off. -/
def aiNoUrl : AIEnv := ⟨none, none, fun _ _ => Except.ok none⟩

/-- AI environment whose HTTP request resolves with review text equal to
the failure fallback. -/
def aiOkButErrorText : AIEnv :=
  ⟨some "http://ai.internal/review", none,
    fun _ _ => Except.ok (some "Error generating review.")⟩

/-- C10 witness: the three concrete environment configurations. -/
theorem C10_plain_string_outcomes_witness :
    AIReviewService.getFileReview aiNoUrl "main.tf" =
        "AI review unavailable." ∧
      AIReviewService.getFileReview aiHttpFail "main.tf" =
        "Error generating review." ∧
      AIReviewService.getFileReview aiOkButErrorText "main.tf" =
        AIReviewService.getFileReview aiHttpFail "main.tf" :=
  C10_plain_string_outcomes aiNoUrl aiHttpFail aiOkButErrorText "main.tf"
    "http://ai.internal/review" "ECONNREFUSED" (by decide) rfl (by decide)
    rfl (by decide) rfl (by decide) rfl (by decide) rfl
